import Mathlib

/-!
Shallow embedding of the `microtype` proc-macro pipeline
(`microtype-macro/src/{parse.rs, model.rs, codegen/*}`).

Token-level details (syn types, `quote!` output) are abstracted to the
artifact level: each generated `impl` block / struct definition becomes one
`Artifact` value, and a `compile_error!` invocation becomes a `GenError`.
Spans are plain `Nat`s. The `cfg!(feature = ...)` constants of
`codegen/mod.rs` (`HAS_SERDE`, `HAS_TEST_IMPLS`, `HAS_DEREF_IMPLS`,
`HAS_SECRET`) are threaded explicitly as a `Features` record.
A `todo!()` or a failed `assert!` in the source is modelled by the
`GenOutput.panics` outcome.
-/

deriving instance DecidableEq for Except

/-- One nested element of an attribute's argument list, as inspected by
`strip_special_attrs` (syn's `NestedMeta`): either a bare path with its
identifier, or any other nested item, of which only the span is consulted. -/
inductive NestedArg
  | metaPath (ident : String) (span : Nat)
  | other (span : Nat)
deriving DecidableEq

/-- The span of a nested argument (`Spanned::span` in the source). -/
def NestedArg.span : NestedArg → Nat
  | .metaPath _ s => s
  | .other s => s

/-- Result of `Attribute::parse_meta` (syn's `Meta`), shallowly: a bare path
`#[secret]`, a list `#[secret(...)]`, or any other meta shape (the
source's `Ok(other)` catch-all, e.g. a name-value meta). -/
inductive AttrMeta
  | path (ident : String) (span : Nat)
  | list (nested : List NestedArg) (span : Nat)
  | nameValue (span : Nat)
deriving DecidableEq

/-- A source attribute `#[...]` (syn's `Attribute`): its path identifier
(matched by `path.is_ident(...)`), its span, and the result of
`parse_meta`, where `none` models the `Err(e)` case. -/
structure Attr where
  path : String
  span : Nat
  meta : Option AttrMeta
deriving DecidableEq

/-- The located `compile_error!` artifacts produced by the validator and
dispatcher (`codegen/special_attrs/mod.rs`, `codegen/special_attrs/type_annotation.rs`,
`codegen/errors.rs`). -/
inductive GenError
  | duplicateSecret (span : Nat)
  | expectedSecretOrSerialize (span : Nat)
  | metaParseError (span : Nat)
  | duplicateString (span : Nat)
  | duplicateInt (span : Nat)
  | onlyOneKindMarker
  | serializeWithoutSerde (span : Nat)
  | secretFeatureMissing (span : Nat)
deriving DecidableEq

/-- The kind annotation (`TypeAnnotation` in
`codegen/special_attrs/type_annotation.rs`): `#[string]` or `#[int]`. -/
inductive KindAnnot
  | string
  | int
deriving DecidableEq

/-- `SecretAttr` from `codegen/special_attrs/mod.rs`: the optional
`serialize` sub-argument (here: the span of the `serialize` ident) and the
span of the attribute's path, used for error locations. -/
structure SecretAttr where
  serialize : Option Nat
  pathSpan : Nat
deriving DecidableEq

/-- `SpecialAttrs` from `codegen/special_attrs/mod.rs`. The field
`kindAnnot` models the source field `type_annotation`. -/
structure SpecialAttrs where
  secret : Option SecretAttr
  kindAnnot : Option KindAnnot
deriving DecidableEq

/-- `strip_type_annotation` from `codegen/special_attrs/type_annotation.rs`:
partition out `#[string]`, check duplicates, partition out `#[int]`, check
duplicates, then combine, rejecting the both-present case. -/
def stripKindAnnot (attrs : List Attr) :
    Except GenError (List Attr × Option KindAnnot) :=
  match attrs.partition (fun a => a.path == "string") with
  | (strings, attrs1) =>
    match strings, attrs1.partition (fun a => a.path == "int") with
    | _ :: second :: _, _ => .error (.duplicateString second.span)
    | strings, (ints, attrs2) =>
      match ints with
      | _ :: second :: _ => .error (.duplicateInt second.span)
      | ints =>
        match strings, ints with
        | [], [] => .ok (attrs2, none)
        | [_], [] => .ok (attrs2, some .string)
        | [], [_] => .ok (attrs2, some .int)
        | _, _ => .error .onlyOneKindMarker

/-- `strip_special_attrs` from `codegen/special_attrs/mod.rs`: partition out
`#[secret]` (at most one, parsing its optional `serialize` sub-argument),
then run the kind-annotation pass on the remainder. The diesel /
column-mapping marker is NOT handled here: it stays among the pass-through
attributes. -/
def stripSpecialAttrs (attrs : List Attr) :
    Except GenError (List Attr × SpecialAttrs) :=
  match attrs.partition (fun a => a.path == "secret") with
  | (secretAttrs, rest) =>
    let secretRes : Except GenError (Option SecretAttr) :=
      match secretAttrs with
      | [] => .ok none
      | [single] =>
        match single.meta with
        | some (.list nested _) =>
          match nested with
          | [] => .ok (some { serialize := none, pathSpan := single.span })
          | [NestedArg.metaPath id sp] =>
            if id == "serialize" then
              .ok (some { serialize := some sp, pathSpan := single.span })
            else
              .error (.expectedSecretOrSerialize sp)
          | other :: _ => .error (.expectedSecretOrSerialize other.span)
        | some (.path _ sp) => .ok (some { serialize := none, pathSpan := sp })
        | some (.nameValue sp) => .error (.expectedSecretOrSerialize sp)
        | none => .error (.metaParseError single.span)
      | _ :: second :: _ => .error (.duplicateSecret second.span)
    match secretRes with
    | .error e => .error e
    | .ok secret =>
      match stripKindAnnot rest with
      | .error e => .error e
      | .ok (rest, kindAnnot) => .ok (rest, { secret, kindAnnot })

/-- `Microtype` from `model.rs`: one validated-input record per generated
wrapper type. Types, identifiers and visibilities are kept as strings. -/
structure Microtype where
  inner : String
  name : String
  vis : String
  attrs : List Attr
deriving DecidableEq

/-- `AttrIdent` from `parse.rs`: a declared name with its name-level
attributes. -/
structure AttrIdent where
  attributes : List Attr
  ident : String
deriving DecidableEq

/-- `MicrotypeDecl` from `parse.rs`: one block
`attrs* vis inner { (attrs* name),* }`. -/
structure MicrotypeDecl where
  attrs : List Attr
  inner : String
  idents : List AttrIdent
  vis : String
deriving DecidableEq

/-- The whole invocation (`MicrotypeMacro` in `parse.rs`): the ordered list
of blocks. -/
structure MicrotypeInput where
  decls : List MicrotypeDecl
deriving DecidableEq

/-- `flatten` from `model.rs`, mirroring the nested `for` loops pushing into
`result`: for each block, for each name, one `Microtype` whose attribute
list is the name-level attributes extended with a copy of the block-level
ones. -/
def flatten (m : MicrotypeInput) : List Microtype :=
  m.decls.foldl
    (fun result decl =>
      decl.idents.foldl
        (fun result attrIdent =>
          result ++
            [{ attrs := attrIdent.attributes ++ decl.attrs,
               inner := decl.inner,
               name := attrIdent.ident,
               vis := decl.vis }])
        result)
    []

/-- The build-wide capability-family switches: the `cfg!` constants of
`codegen/mod.rs` (`HAS_SERDE`, `HAS_TEST_IMPLS`, `HAS_DEREF_IMPLS`,
`HAS_SECRET`), passed explicitly. -/
structure Features where
  serde : Bool
  testImpls : Bool
  derefImpls : Bool
  secret : Bool
deriving DecidableEq

/-- The formatting traits delegated to the inner type by `fmt_impl`
(`codegen/special_attrs/helpers.rs`) for the `#[int]` group. -/
inductive FmtTrait
  | display | octal | lowerHex | upperHex | binary | lowerExp | upperExp
deriving DecidableEq

/-- The binary arithmetic operators of the `#[int]` group. -/
inductive ArithOp
  | add | sub | mul | div | rem
deriving DecidableEq

/-- The derive/attribute set placed on the secret structs by
`attrs_for_both` (`codegen/secret.rs`). -/
structure SecretDerives where
  reprTransparent : Bool
  clone : Bool
  debugNotTest : Bool
  debugTest : Bool
  deserialize : Bool
  serialize : Bool
deriving DecidableEq

/-- One generated source artifact (an `impl` block or struct definition),
at the granularity the codegen functions assemble them:
`structDef` is the normal wrapper struct with its pass-through attributes
and whether the transparent serde derives are attached;
`microtypeImpl` is the `impl Microtype` block (`new`, `into_inner`,
`inner`, `inner_mut`, `convert`); `derefImpl` is `Deref`+`DerefMut`;
`secretStructDefs` is the outer+hidden-wrapper struct pair with the derive
set attached to each; `exposeSecretImpl` is the borrowed
`ExposeSecret` accessor; `secretMicrotypeImpl` is the `SecretMicrotype`
constructor; `secretAsRefStr` is the `AsRef` borrowed string accessor of
the secret `#[string]` group. -/
inductive Artifact
  | structDef (passThrough : List Attr) (serdeTransparent : Bool)
  | microtypeImpl
  | fromInnerImpl
  | derefImpl
  | stringFromStr
  | stringDisplay
  | stringFromBorrowedStr
  | fmtImpl (t : FmtTrait)
  | intFromStr
  | arithImpl (op : ArithOp)
  | arithAssignImpl (op : ArithOp)
  | dieselFromSql
  | dieselToSql
  | secretStructDefs (passThrough : List Attr) (outer inner : SecretDerives)
  | cloneableSecretImpl
  | debugSecretImpl
  | zeroizeImpl
  | serializableSecretImpl
  | exposeSecretImpl
  | secretMicrotypeImpl
  | testDebugImpl
  | testPartialEqImpl
  | secretStringFromStr
  | secretAsRefStr
deriving DecidableEq

/-- The outcome of generating one specification: an artifact set, a single
located error artifact, or a panic (`todo!()` / failed `assert!`). -/
inductive GenOutput
  | artifacts (arts : List Artifact)
  | err (e : GenError)
  | panics
deriving DecidableEq

/-- The `#[string]` group of `codegen/normal.rs` (`string_impls`):
`FromStr`, `Display`, `From<&str>`. -/
def stringImplsNormal : List Artifact :=
  [.stringFromStr, .stringDisplay, .stringFromBorrowedStr]

/-- `generate_int_impls` from `codegen/special_attrs/int.rs`: the seven
format renderings, `FromStr` with `Err = core::num::ParseIntError`, the
five arithmetic operators and their five assignment variants. This
function is exported from its module but is never invoked by
`generate_normal`, whose `#[int]` arm is `todo!()`. -/
def generateIntImpls : List Artifact :=
  [.fmtImpl .display, .fmtImpl .octal, .fmtImpl .lowerHex, .fmtImpl .upperHex,
   .fmtImpl .binary, .fmtImpl .lowerExp, .fmtImpl .upperExp,
   .intFromStr,
   .arithImpl .add, .arithImpl .sub, .arithImpl .mul, .arithImpl .div,
   .arithImpl .rem,
   .arithAssignImpl .add, .arithAssignImpl .sub, .arithAssignImpl .mul,
   .arithAssignImpl .div, .arithAssignImpl .rem]

/-- `generate_normal` from `codegen/normal.rs`: struct definition carrying
the pass-through attributes (plus serde transparent derives when the serde
family is on), the core `Microtype` impl, `From<inner>`, the deref pair
when that family is on, and the kind-specific group. The `#[int]` arm of
the source is `todo!()`, i.e. a panic. -/
def generateNormal (feats : Features) (_inner _name _vis : String)
    (attrs : List Attr) (specialAttrs : SpecialAttrs) : GenOutput :=
  let structDef := Artifact.structDef attrs feats.serde
  let derefImpl : List Artifact :=
    if feats.derefImpls then [Artifact.derefImpl] else []
  match specialAttrs.kindAnnot with
  | some .int => .panics
  | none =>
      .artifacts ([structDef, .microtypeImpl, .fromInnerImpl] ++ derefImpl)
  | some .string =>
      .artifacts
        ([structDef, .microtypeImpl, .fromInnerImpl] ++ derefImpl ++
          stringImplsNormal)

/-- `attrs_for_both` from `codegen/secret.rs`: `repr(transparent)`, derive
`Clone`, derive `Debug` outside test builds, additionally derive `Debug`
in test builds when the `test_impls` family is off, and the serde derives
(`Deserialize`, plus `Serialize` when the `serialize` sub-flag is set)
when the serde family is on. The same token block is attached to both the
outer struct and the hidden wrapper struct. -/
def attrsForBoth (feats : Features) (serialize : Bool) : SecretDerives :=
  { reprTransparent := true
    clone := true
    debugNotTest := true
    debugTest := !feats.testImpls
    deserialize := feats.serde
    serialize := feats.serde && serialize }

/-- `wrapper_impls` from `codegen/secret.rs`: the secrecy marker impls on
the hidden wrapper, plus `SerializableSecret` when `serialize` is set and
the serde family is on. -/
def wrapperImpls (feats : Features) (serialize : Bool) : List Artifact :=
  [.cloneableSecretImpl, .debugSecretImpl, .zeroizeImpl] ++
    (if serialize && feats.serde then [.serializableSecretImpl] else [])

/-- `test_impls` from `codegen/secret.rs`: the `#[cfg(test)]` `Debug` and
`PartialEq` impls exposing the real value. -/
def testImpls : List Artifact := [.testDebugImpl, .testPartialEqImpl]

/-- The `#[string]` group of `codegen/secret.rs` (`string_impls`):
`FromStr` through the secret constructor and an `AsRef` borrowed string
accessor. -/
def stringImplsSecret : List Artifact := [.secretStringFromStr, .secretAsRefStr]

/-- `generate_secret` from `codegen/secret.rs`. The function `assert!`s that
the secret marker is present (`panics` otherwise), then emits the struct
pair, the wrapper marker impls, the `ExposeSecret` accessor, the
`SecretMicrotype` constructor, the test impls (unconditionally), and the
kind-specific group, whose `#[int]` arm is `todo!()`. -/
def generateSecret (feats : Features) (_inner _name : String)
    (extraAttrs : List Attr) (_vis : String) (specialAttrs : SpecialAttrs) :
    GenOutput :=
  match specialAttrs.secret with
  | none => .panics
  | some secret =>
    let serialize := secret.serialize.isSome
    let derives := attrsForBoth feats serialize
    let structDefs := Artifact.secretStructDefs extraAttrs derives derives
    match specialAttrs.kindAnnot with
    | some .int => .panics
    | none =>
        .artifacts
          ([structDefs] ++ wrapperImpls feats serialize ++
            [.exposeSecretImpl, .secretMicrotypeImpl] ++ testImpls)
    | some .string =>
        .artifacts
          ([structDefs] ++ wrapperImpls feats serialize ++
            [.exposeSecretImpl, .secretMicrotypeImpl] ++ testImpls ++
            stringImplsSecret)

/-- `diesel_impl_not_secret` from `codegen/diesel.rs`: the
`FromSql`/`ToSql` pair, gated on a `HAS_DIESEL` constant that
`codegen/mod.rs` does not define (the module is declared but unwired); the
parameter stands for that constant. No function in `codegen/mod.rs`,
`codegen/normal.rs` or `codegen/secret.rs` calls it. -/
def dieselImplNotSecret (hasDiesel : Bool) : List Artifact :=
  if hasDiesel then [.dieselFromSql, .dieselToSql] else []

/-- `generate_single` from `codegen/mod.rs`: validate the attribute list,
fail fast when the `serialize` sub-flag is set without the serde family or
when a secret marker is present without the secret family, and otherwise
dispatch to the normal or secret generator. -/
def generateSingle (feats : Features) (m : Microtype) : GenOutput :=
  match stripSpecialAttrs m.attrs with
  | .error e => .err e
  | .ok (attrs, specialAttrs) =>
    match feats.serde, specialAttrs.secret with
    | false, some { serialize := some _, pathSpan := ps } =>
        .err (.serializeWithoutSerde ps)
    | _, _ =>
      match specialAttrs.secret with
      | none => generateNormal feats m.inner m.name m.vis attrs specialAttrs
      | some s =>
        if feats.secret then
          generateSecret feats m.inner m.name attrs m.vis specialAttrs
        else
          .err (.secretFeatureMissing s.pathSpan)

/-- `codegen` from `codegen/mod.rs`: fold over the specifications, extending
the output stream with each specification's tokens. -/
def codegen (feats : Features) (microtypes : List Microtype) :
    List GenOutput :=
  microtypes.foldl (fun stream m => stream ++ [generateSingle feats m]) []

/-- Whether an artifact hands out owning or mutable access to the inner
value: the `Microtype` impl does (`into_inner` returns the inner by value,
`inner_mut` returns `&mut`), and the deref pair does (`DerefMut`). Every
other artifact either grants no access, constructs from an inner value, or
returns a shared reference. -/
def yieldsOwnedOrMutInner : Artifact → Bool
  | .microtypeImpl => true
  | .derefImpl => true
  | _ => false

/-- Whether an artifact is an accessor returning (a reference to) the inner
value: the `Microtype` impl (`inner`, `inner_mut`, `into_inner`), the
deref pair, the `ExposeSecret` impl (`&inner`), and the secret `#[string]`
group's `AsRef` impl. -/
def isInnerAccessor : Artifact → Bool
  | .microtypeImpl => true
  | .derefImpl => true
  | .exposeSecretImpl => true
  | .secretAsRefStr => true
  | _ => false

/-- A bare `#[int]` marker attribute at the given span. -/
def intAttr (sp : Nat) : Attr :=
  { path := "int", span := sp, meta := some (.path "int" sp) }

/-- A bare `#[string]` marker attribute at the given span. -/
def stringAttr (sp : Nat) : Attr :=
  { path := "string", span := sp, meta := some (.path "string" sp) }

/-- A bare `#[secret]` marker attribute at the given span. -/
def secretAttr (sp : Nat) : Attr :=
  { path := "secret", span := sp, meta := some (.path "secret" sp) }

/-- A `#[secret(serialize)]` marker attribute at the given spans. -/
def secretSerializeAttr (sp argSp : Nat) : Attr :=
  { path := "secret", span := sp,
    meta := some (.list [.metaPath "serialize" argSp] sp) }

/-- A `#[diesel(sql_type = Text)]`-shaped column-mapping marker at the given
span (its argument tokens are irrelevant to `strip_special_attrs`). -/
def dieselAttr (sp : Nat) : Attr :=
  { path := "diesel", span := sp, meta := some (.list [.other sp] sp) }

/-- All four capability families enabled. -/
def allFeatures : Features :=
  { serde := true, testImpls := true, derefImpls := true, secret := true }

/-- All four capability families disabled. -/
def noFeatures : Features :=
  { serde := false, testImpls := false, derefImpls := false, secret := false }
-- appended to definitions for testing
/-- Helper: the inner name loop of `flatten` appends, to its accumulator, one
spec per declared name, in name order, with name-level attributes followed
by the block-level ones. -/
theorem flatten_inner (decl : MicrotypeDecl) (idents : List AttrIdent)
    (acc : List Microtype) :
    idents.foldl
      (fun result attrIdent =>
        result ++
          [{ attrs := attrIdent.attributes ++ decl.attrs,
             inner := decl.inner,
             name := attrIdent.ident,
             vis := decl.vis }])
      acc
      = acc ++ idents.map (fun ai =>
          { attrs := ai.attributes ++ decl.attrs,
            inner := decl.inner,
            name := ai.ident,
            vis := decl.vis }) := by
  induction idents generalizing acc with
  | nil => simp
  | cons x xs ih => simp [ih]

/-- Claim C4: flattening produces exactly one specification per declared
name, whose annotation list is the name-level annotations `N` followed by
the block-level annotations `B` (`N ++ B`), the specifications are ordered
by declaration order and then by name order within a block, and the stage
is a total function with no failure path. -/
theorem flatten_merges_name_then_block_in_order (m : MicrotypeInput) :
    flatten m
      = m.decls.flatMap (fun decl => decl.idents.map (fun ai =>
          { attrs := ai.attributes ++ decl.attrs,
            inner := decl.inner,
            name := ai.ident,
            vis := decl.vis })) := by
  show (m.decls.foldl _ ([] : List Microtype)) = _
  suffices h : ∀ (ds : List MicrotypeDecl) (acc : List Microtype),
      ds.foldl
        (fun result decl =>
          decl.idents.foldl
            (fun result attrIdent =>
              result ++
                [{ attrs := attrIdent.attributes ++ decl.attrs,
                   inner := decl.inner,
                   name := attrIdent.ident,
                   vis := decl.vis }])
            result)
        acc
        = acc ++ ds.flatMap (fun decl => decl.idents.map (fun ai =>
            { attrs := ai.attributes ++ decl.attrs,
              inner := decl.inner,
              name := ai.ident,
              vis := decl.vis })) by
    simpa [flatten] using h m.decls []
  intro ds
  induction ds with
  | nil => intro acc; simp
  | cons d ds ih =>
    intro acc
    rw [List.foldl_cons, flatten_inner, ih, List.flatMap_cons, List.append_assoc]

/-- Helper: the output stream fold of `codegen` is the concatenation of the
per-specification outputs. -/
theorem codegen_foldl (feats : Features) (ms : List Microtype)
    (acc : List GenOutput) :
    ms.foldl (fun stream m => stream ++ [generateSingle feats m]) acc
      = acc ++ ms.map (generateSingle feats) := by
  induction ms generalizing acc with
  | nil => simp
  | cons x xs ih => simp [ih]

/-- Claim C10: every specification is processed independently and the
aggregated output is the concatenation, in the original specification
order, of exactly one entry per specification; in particular an error
artifact for one specification replaces only that specification's entry
and all other entries are still produced. -/
theorem codegen_per_spec_independent (feats : Features)
    (ms xs ys : List Microtype) (m : Microtype) :
    codegen feats ms = ms.map (generateSingle feats) ∧
    codegen feats (xs ++ m :: ys)
      = codegen feats xs ++ generateSingle feats m :: codegen feats ys := by
  constructor
  · simp [codegen, codegen_foldl]
  · simp [codegen, codegen_foldl]

/-- Helper: filtering for `#[int]` markers after having removed the
`#[string]` markers selects the same attributes as filtering the original
list, since no attribute path is both. -/
theorem filter_int_comm (attrs : List Attr) :
    (attrs.filter (not ∘ fun a => a.path == "string")).filter
        (fun a => a.path == "int")
      = attrs.filter (fun a => a.path == "int") := by
  induction attrs with
  | nil => rfl
  | cons a t ih =>
    by_cases hs : a.path = "string"
    · simp [hs, ih, Function.comp]
    · by_cases hi : a.path = "int" <;> simp [Function.comp, hs, hi, ih]

/-- Claim C9: the kind-annotation pass of the validator is exclusive and
total: a repeated string or int marker yields the duplicate error located
at the second occurrence of that marker; a string marker and an int marker
together (once each) yield the conflicting-attribute error; exactly one of
them yields that kind; neither yields no kind annotation; and in the
successful cases the remaining attributes are the non-marker ones in their
original order. -/
theorem strip_kind_marker_exclusive_total (attrs : List Attr) :
    (∀ x y t, attrs.filter (fun a => a.path == "string") = x :: y :: t →
        stripKindAnnot attrs = .error (.duplicateString y.span)) ∧
    (∀ x y t, (attrs.filter (fun a => a.path == "string")).length ≤ 1 →
        attrs.filter (fun a => a.path == "int") = x :: y :: t →
        stripKindAnnot attrs = .error (.duplicateInt y.span)) ∧
    (∀ x y, attrs.filter (fun a => a.path == "string") = [x] →
        attrs.filter (fun a => a.path == "int") = [y] →
        stripKindAnnot attrs = .error .onlyOneKindMarker) ∧
    (∀ x, attrs.filter (fun a => a.path == "string") = [x] →
        attrs.filter (fun a => a.path == "int") = [] →
        stripKindAnnot attrs
          = .ok ((attrs.filter (not ∘ fun a => a.path == "string")).filter
              (not ∘ fun a => a.path == "int"), some .string)) ∧
    (∀ y, attrs.filter (fun a => a.path == "string") = [] →
        attrs.filter (fun a => a.path == "int") = [y] →
        stripKindAnnot attrs
          = .ok ((attrs.filter (not ∘ fun a => a.path == "string")).filter
              (not ∘ fun a => a.path == "int"), some .int)) ∧
    (attrs.filter (fun a => a.path == "string") = [] →
        attrs.filter (fun a => a.path == "int") = [] →
        stripKindAnnot attrs
          = .ok ((attrs.filter (not ∘ fun a => a.path == "string")).filter
              (not ∘ fun a => a.path == "int"), none)) := by
  refine ⟨?_, ?_, ?_, ?_, ?_, ?_⟩
  · intro x y t h
    simp only [stripKindAnnot, List.partition_eq_filter_filter, filter_int_comm, h]
  · intro x y t hlen hint
    rcases hstr : attrs.filter (fun a => a.path == "string") with _ | ⟨z, _ | ⟨w, ws⟩⟩
    · simp only [stripKindAnnot, List.partition_eq_filter_filter, filter_int_comm,
        hstr, hint]
    · simp only [stripKindAnnot, List.partition_eq_filter_filter, filter_int_comm,
        hstr, hint]
    · rw [hstr] at hlen; simp at hlen
  · intro x y hstr hint
    simp only [stripKindAnnot, List.partition_eq_filter_filter, filter_int_comm,
      hstr, hint]
  · intro x hstr hint
    simp only [stripKindAnnot, List.partition_eq_filter_filter, filter_int_comm,
      hstr, hint]
  · intro y hstr hint
    simp only [stripKindAnnot, List.partition_eq_filter_filter, filter_int_comm,
      hstr, hint]
  · intro hstr hint
    simp only [stripKindAnnot, List.partition_eq_filter_filter, filter_int_comm,
      hstr, hint]

/-- Helper: whenever `generateSecret` returns artifacts, they are exactly the
struct pair (with the shared derive set on both structs), the wrapper
marker impls, the `ExposeSecret` accessor, the constructor, the test
impls, and the string group when the string kind is annotated; the int
kind never reaches an artifact set. -/
theorem generate_secret_artifacts (feats : Features) (inner name vis : String)
    (extraAttrs : List Attr) (sa : SpecialAttrs) (s : SecretAttr)
    (hsec : sa.secret = some s) (l : List Artifact)
    (hout : generateSecret feats inner name extraAttrs vis sa = .artifacts l) :
    l = [Artifact.secretStructDefs extraAttrs
            (attrsForBoth feats s.serialize.isSome)
            (attrsForBoth feats s.serialize.isSome)]
        ++ wrapperImpls feats s.serialize.isSome
        ++ [.exposeSecretImpl, .secretMicrotypeImpl] ++ testImpls
        ++ (match sa.kindAnnot with
            | some .string => stringImplsSecret
            | _ => ([] : List Artifact))
      ∧ sa.kindAnnot ≠ some .int := by
  rcases hk : sa.kindAnnot with _ | k
  · simp only [generateSecret, hsec, hk] at hout
    simp only [GenOutput.artifacts.injEq] at hout
    simp [← hout]
  · cases k
    · simp only [generateSecret, hsec, hk] at hout
      simp only [GenOutput.artifacts.injEq] at hout
      simp [← hout]
    · simp only [generateSecret, hsec, hk] at hout
      exact absurd hout (by simp)

/-- Helper: if a specification with a secret marker produces artifacts, they
came from `generateSecret` and the secret family is enabled. -/
theorem generate_single_secret_dispatch (feats : Features) (m : Microtype)
    (attrs : List Attr) (sa : SpecialAttrs) (s : SecretAttr)
    (l : List Artifact)
    (hstrip : stripSpecialAttrs m.attrs = .ok (attrs, sa))
    (hsec : sa.secret = some s)
    (hout : generateSingle feats m = .artifacts l) :
    generateSecret feats m.inner m.name attrs m.vis sa = .artifacts l
      ∧ feats.secret = true := by
  obtain ⟨ser, ps⟩ := s
  cases hserde : feats.serde <;> cases hs2 : ser <;>
    cases hsecret : feats.secret <;>
      simp only [generateSingle, hstrip, hserde, hsec, hs2, hsecret] at hout ⊢ <;>
        simp_all

/-- Claim C8: for every validated specification carrying a secret marker, the
dispatcher fails fast with exactly one located error artifact — and no
wrapper artifacts — when the serialize sub-flag is set while the serde
family is disabled, or when the secret family is disabled; in the latter
case (and the serialize pre-check not firing) the error is the
secret-feature-missing one at the marker's span. -/
theorem generate_single_fail_fast_prechecks (feats : Features) (m : Microtype)
    (attrs : List Attr) (sa : SpecialAttrs) (s : SecretAttr)
    (hstrip : stripSpecialAttrs m.attrs = .ok (attrs, sa))
    (hsec : sa.secret = some s) :
    (feats.serde = false → s.serialize.isSome = true →
        generateSingle feats m = .err (.serializeWithoutSerde s.pathSpan)) ∧
    (feats.secret = false → (feats.serde = true ∨ s.serialize = none) →
        generateSingle feats m = .err (.secretFeatureMissing s.pathSpan)) ∧
    ((feats.serde = false ∧ s.serialize.isSome = true) ∨ feats.secret = false →
        ∃ e, generateSingle feats m = .err e) := by
  obtain ⟨ser, ps⟩ := s
  have h1 : feats.serde = false → Option.isSome ser = true →
      generateSingle feats m = .err (.serializeWithoutSerde ps) := by
    intro hserde hser
    rcases hs2 : ser with _ | sp
    · rw [hs2] at hser; simp at hser
    · simp only [generateSingle, hstrip, hsec, hserde, hs2]
  have h2 : feats.secret = false → (feats.serde = true ∨ ser = none) →
      generateSingle feats m = .err (.secretFeatureMissing ps) := by
    intro hsecret hcase
    rcases hcase with hserde | hnone
    · cases hs2 : ser <;>
        simp only [generateSingle, hstrip, hsec, hserde, hsecret, hs2] <;> simp
    · cases hserde : feats.serde <;>
        simp only [generateSingle, hstrip, hsec, hserde, hsecret, hnone] <;> simp
  refine ⟨h1, h2, ?_⟩
  intro h
  rcases h with ⟨hserde, hser⟩ | hsecret
  · exact ⟨_, h1 hserde hser⟩
  · rcases hs2 : ser with _ | sp
    · exact ⟨_, h2 hsecret (Or.inr hs2)⟩
    · cases hserde : feats.serde
      · exact ⟨_, h1 hserde (by rw [hs2]; rfl)⟩
      · exact ⟨_, h2 hsecret (Or.inl hserde)⟩

/-- Claim C5, amended: for every secret-variant specification, no generated
artifact yields owning or mutable access to the inner value, and every
artifact that is an accessor to the inner value is borrowed: either the
secret-exposure accessor or, for string-kind secret specifications, the
as-string-reference accessor. (The claim as stated — the exposure accessor
is the only accessor — fails for string-kind secret specifications, see
the counterexample.) -/
theorem secret_artifacts_only_borrowed_access (feats : Features) (m : Microtype)
    (attrs : List Attr) (sa : SpecialAttrs) (s : SecretAttr) (l : List Artifact)
    (hstrip : stripSpecialAttrs m.attrs = .ok (attrs, sa))
    (hsec : sa.secret = some s)
    (hout : generateSingle feats m = .artifacts l) :
    ∀ a ∈ l, yieldsOwnedOrMutInner a = false ∧
      (isInnerAccessor a = true →
        a = Artifact.exposeSecretImpl ∨ a = Artifact.secretAsRefStr) := by
  obtain ⟨hgen, -⟩ :=
    generate_single_secret_dispatch feats m attrs sa s l hstrip hsec hout
  obtain ⟨hl, hk⟩ :=
    generate_secret_artifacts feats m.inner m.name m.vis attrs sa s hsec l hgen
  subst hl
  intro a ha
  rcases hk2 : sa.kindAnnot with _ | k
  · rw [hk2] at ha
    simp only [wrapperImpls, testImpls] at ha
    cases hif : (s.serialize.isSome && feats.serde) <;> simp only [hif] at ha <;>
      simp only [List.append_assoc, List.cons_append, List.nil_append,
        if_true, if_false, Bool.false_eq_true, ite_false, ite_true] at ha <;>
      fin_cases ha <;> simp [yieldsOwnedOrMutInner, isInnerAccessor]
  · cases k
    · rw [hk2] at ha
      simp only [wrapperImpls, testImpls, stringImplsSecret] at ha
      cases hif : (s.serialize.isSome && feats.serde) <;> simp only [hif] at ha <;>
        simp only [List.append_assoc, List.cons_append, List.nil_append,
          if_true, if_false, Bool.false_eq_true, ite_false, ite_true] at ha <;>
        fin_cases ha <;> simp [yieldsOwnedOrMutInner, isInnerAccessor]
    · exact absurd hk2 hk

/-- Claim C6, amended: for a secret specification with the serialize sub-flag
set and the serde family enabled, the emitted struct-pair artifact carries
the same derive set on the outer wrapper and on the hidden internal
wrapper, and that shared set derives both deserialization and
serialization — so serialization is derived on both types, not only on
the outer one. -/
theorem secret_serialize_derives_on_both_structs (feats : Features)
    (m : Microtype) (attrs : List Attr) (sa : SpecialAttrs) (s : SecretAttr)
    (hstrip : stripSpecialAttrs m.attrs = .ok (attrs, sa))
    (hsec : sa.secret = some s)
    (hser : s.serialize.isSome = true)
    (hserde : feats.serde = true) :
    ∀ l, generateSingle feats m = .artifacts l →
      l.head? = some (Artifact.secretStructDefs attrs
          (attrsForBoth feats true) (attrsForBoth feats true))
      ∧ (attrsForBoth feats true).deserialize = true
      ∧ (attrsForBoth feats true).serialize = true := by
  intro l hout
  obtain ⟨hgen, -⟩ :=
    generate_single_secret_dispatch feats m attrs sa s l hstrip hsec hout
  obtain ⟨hl, -⟩ :=
    generate_secret_artifacts feats m.inner m.name m.vis attrs sa s hsec l hgen
  subst hl
  rw [hser]
  refine ⟨by simp, ?_, ?_⟩
  · simp [attrsForBoth, hserde]
  · simp [attrsForBoth, hserde]

/-- Claim C7, amended: the test-build-only debug and equality implementations
are emitted for every secret-variant specification whose generation
proceeds (the secret family being enabled), regardless of whether the
test-impls family is enabled: `generate_secret` includes `test_impls`
unconditionally. -/
theorem secret_test_impls_unconditional (feats : Features) (m : Microtype)
    (attrs : List Attr) (sa : SpecialAttrs) (s : SecretAttr)
    (hstrip : stripSpecialAttrs m.attrs = .ok (attrs, sa))
    (hsec : sa.secret = some s) :
    ∀ l, generateSingle feats m = .artifacts l →
      Artifact.testDebugImpl ∈ l ∧ Artifact.testPartialEqImpl ∈ l := by
  intro l hout
  obtain ⟨hgen, -⟩ :=
    generate_single_secret_dispatch feats m attrs sa s l hstrip hsec hout
  obtain ⟨hl, -⟩ :=
    generate_secret_artifacts feats m.inner m.name m.vis attrs sa s hsec l hgen
  subst hl
  simp [testImpls]

/-- Claim C1: the dispatcher does not emit the integer capability group for
an IntKind specification: `generate_normal`'s `#[int]` arm is `todo!()`,
so generation panics and emits nothing, while `generate_int_impls` — which
does implement the full group (seven format renderings, the arithmetic
operators with their assignment variants, and the parse-from-string impl)
— is never invoked. The repository's own pass tests
(`tests/ui/pass/format_impls.rs`, `tests/ui/pass/outrageous_naming.rs`)
expect the group to be emitted. -/
theorem int_kind_dispatch_hits_todo :
    generateSingle allFeatures
        { inner := "i64", name := "Age", vis := "pub", attrs := [intAttr 3] }
      = .panics
    ∧ Artifact.intFromStr ∈ generateIntImpls
    ∧ Artifact.fmtImpl .octal ∈ generateIntImpls
    ∧ Artifact.arithAssignImpl .rem ∈ generateIntImpls := by decide

/-- Claim C2: generation is not total: a specification with the `#[int]`
marker makes `generate_single` panic via the `todo!()` in
`generate_normal` instead of returning an artifact set or an error
artifact, for any setting of the capability-family switches. -/
theorem generation_panics_on_int_marker :
    generateSingle noFeatures
        { inner := "i32", name := "Num", vis := "", attrs := [intAttr 0] }
      = .panics := by decide

/-- Claim C3: the validator does not partition out the column-mapping
(diesel) marker — it stays among the pass-through attributes on the
generated struct — and the dispatcher never emits the column-mapping
read/write pair, even though `diesel_impl_not_secret` implementing that
pair exists in the repository, unwired. -/
theorem diesel_marker_not_stripped_no_column_impls :
    stripSpecialAttrs [dieselAttr 9]
      = .ok ([dieselAttr 9], { secret := none, kindAnnot := none })
    ∧ generateSingle allFeatures
        { inner := "String", name := "Email", vis := "", attrs := [dieselAttr 9] }
      = .artifacts [.structDef [dieselAttr 9] true, .microtypeImpl,
          .fromInnerImpl, .derefImpl]
    ∧ Artifact.dieselFromSql ∉
        ([.structDef [dieselAttr 9] true, .microtypeImpl, .fromInnerImpl,
          .derefImpl] : List Artifact)
    ∧ Artifact.dieselToSql ∉
        ([.structDef [dieselAttr 9] true, .microtypeImpl, .fromInnerImpl,
          .derefImpl] : List Artifact)
    ∧ dieselImplNotSecret true = [.dieselFromSql, .dieselToSql] := by decide

/-- Claim C5, counterexample to the claim as stated: for a secret `#[string]`
specification the artifact set contains the as-string-reference accessor,
a borrowed accessor to the inner value distinct from the secret-exposure
accessor, so the exposure accessor is not the only accessor. -/
theorem secret_string_spec_extra_borrowed_accessor :
    generateSingle allFeatures
        { inner := "String", name := "Password", vis := "",
          attrs := [secretAttr 1, stringAttr 2] }
      = .artifacts
          [.secretStructDefs []
              { reprTransparent := true, clone := true, debugNotTest := true,
                debugTest := false, deserialize := true, serialize := false }
              { reprTransparent := true, clone := true, debugNotTest := true,
                debugTest := false, deserialize := true, serialize := false },
            .cloneableSecretImpl, .debugSecretImpl, .zeroizeImpl,
            .exposeSecretImpl, .secretMicrotypeImpl,
            .testDebugImpl, .testPartialEqImpl,
            .secretStringFromStr, .secretAsRefStr]
    ∧ Artifact.secretAsRefStr ∈
        ([.secretStructDefs []
              { reprTransparent := true, clone := true, debugNotTest := true,
                debugTest := false, deserialize := true, serialize := false }
              { reprTransparent := true, clone := true, debugNotTest := true,
                debugTest := false, deserialize := true, serialize := false },
            .cloneableSecretImpl, .debugSecretImpl, .zeroizeImpl,
            .exposeSecretImpl, .secretMicrotypeImpl,
            .testDebugImpl, .testPartialEqImpl,
            .secretStringFromStr, .secretAsRefStr] : List Artifact)
    ∧ isInnerAccessor .secretAsRefStr = true
    ∧ Artifact.secretAsRefStr ≠ Artifact.exposeSecretImpl := by decide

/-- Claim C6, counterexample: with the serde family enabled, a
`#[secret(serialize)]` specification derives serialization on the hidden
internal wrapper as well — the derive set (with `serialize := true`) is
attached to both struct definitions, contradicting "only on the outer
type". -/
theorem secret_serialize_derived_on_inner_wrapper :
    generateSingle allFeatures
        { inner := "String", name := "Token", vis := "",
          attrs := [secretSerializeAttr 4 6] }
      = .artifacts
          [.secretStructDefs []
              { reprTransparent := true, clone := true, debugNotTest := true,
                debugTest := false, deserialize := true, serialize := true }
              { reprTransparent := true, clone := true, debugNotTest := true,
                debugTest := false, deserialize := true, serialize := true },
            .cloneableSecretImpl, .debugSecretImpl, .zeroizeImpl,
            .serializableSecretImpl,
            .exposeSecretImpl, .secretMicrotypeImpl,
            .testDebugImpl, .testPartialEqImpl]
    ∧ ({ reprTransparent := true, clone := true, debugNotTest := true,
          debugTest := false, deserialize := true,
          serialize := true } : SecretDerives).serialize = true := by decide

/-- Claim C7, counterexample: with the test-impls family enabled, the
test-build-only debug and equality implementations are still emitted for a
secret specification, contradicting "when the test-friendly-debug family
is enabled they are not emitted". -/
theorem test_impls_emitted_despite_test_family :
    allFeatures.testImpls = true
    ∧ generateSingle allFeatures
        { inner := "String", name := "ApiKey", vis := "",
          attrs := [secretAttr 7] }
      = .artifacts
          [.secretStructDefs []
              { reprTransparent := true, clone := true, debugNotTest := true,
                debugTest := false, deserialize := true, serialize := false }
              { reprTransparent := true, clone := true, debugNotTest := true,
                debugTest := false, deserialize := true, serialize := false },
            .cloneableSecretImpl, .debugSecretImpl, .zeroizeImpl,
            .exposeSecretImpl, .secretMicrotypeImpl,
            .testDebugImpl, .testPartialEqImpl]
    ∧ Artifact.testDebugImpl ∈
        ([.secretStructDefs []
              { reprTransparent := true, clone := true, debugNotTest := true,
                debugTest := false, deserialize := true, serialize := false }
              { reprTransparent := true, clone := true, debugNotTest := true,
                debugTest := false, deserialize := true, serialize := false },
            .cloneableSecretImpl, .debugSecretImpl, .zeroizeImpl,
            .exposeSecretImpl, .secretMicrotypeImpl,
            .testDebugImpl, .testPartialEqImpl] : List Artifact) := by decide

/-- Witness for claim C5's amended theorem at a concrete secret
specification and a concrete member artifact. -/
theorem secret_artifacts_only_borrowed_access_witness :
    stripSpecialAttrs [secretAttr 11]
      = .ok ([], { secret := some { serialize := none, pathSpan := 11 },
                   kindAnnot := none })
    ∧ (yieldsOwnedOrMutInner Artifact.zeroizeImpl = false
       ∧ (isInnerAccessor Artifact.zeroizeImpl = true →
           Artifact.zeroizeImpl = Artifact.exposeSecretImpl
             ∨ Artifact.zeroizeImpl = Artifact.secretAsRefStr)) :=
  ⟨by decide,
   secret_artifacts_only_borrowed_access allFeatures
     { inner := "String", name := "Vault", vis := "", attrs := [secretAttr 11] }
     [] { secret := some { serialize := none, pathSpan := 11 }, kindAnnot := none }
     { serialize := none, pathSpan := 11 }
     [.secretStructDefs []
         { reprTransparent := true, clone := true, debugNotTest := true,
           debugTest := false, deserialize := true, serialize := false }
         { reprTransparent := true, clone := true, debugNotTest := true,
           debugTest := false, deserialize := true, serialize := false },
       .cloneableSecretImpl, .debugSecretImpl, .zeroizeImpl,
       .exposeSecretImpl, .secretMicrotypeImpl,
       .testDebugImpl, .testPartialEqImpl]
     (by decide) rfl (by decide) Artifact.zeroizeImpl (by decide)⟩

/-- Witness for claim C6's amended theorem at a concrete
`#[secret(serialize)]` specification. -/
theorem secret_serialize_derives_on_both_structs_witness :
    ([.secretStructDefs []
         { reprTransparent := true, clone := true, debugNotTest := true,
           debugTest := false, deserialize := true, serialize := true }
         { reprTransparent := true, clone := true, debugNotTest := true,
           debugTest := false, deserialize := true, serialize := true },
       .cloneableSecretImpl, .debugSecretImpl, .zeroizeImpl,
       .serializableSecretImpl,
       .exposeSecretImpl, .secretMicrotypeImpl,
       .testDebugImpl, .testPartialEqImpl] : List Artifact).head?
      = some (Artifact.secretStructDefs []
          (attrsForBoth allFeatures true) (attrsForBoth allFeatures true))
    ∧ (attrsForBoth allFeatures true).deserialize = true
    ∧ (attrsForBoth allFeatures true).serialize = true :=
  secret_serialize_derives_on_both_structs allFeatures
    { inner := "String", name := "SessionToken", vis := "",
      attrs := [secretSerializeAttr 13 14] }
    [] { secret := some { serialize := some 14, pathSpan := 13 },
         kindAnnot := none }
    { serialize := some 14, pathSpan := 13 }
    (by decide) rfl rfl rfl
    [.secretStructDefs []
        { reprTransparent := true, clone := true, debugNotTest := true,
          debugTest := false, deserialize := true, serialize := true }
        { reprTransparent := true, clone := true, debugNotTest := true,
          debugTest := false, deserialize := true, serialize := true },
      .cloneableSecretImpl, .debugSecretImpl, .zeroizeImpl,
      .serializableSecretImpl,
      .exposeSecretImpl, .secretMicrotypeImpl,
      .testDebugImpl, .testPartialEqImpl]
    (by decide)

/-- Witness for claim C7's amended theorem at a concrete secret
specification. -/
theorem secret_test_impls_unconditional_witness :
    Artifact.testDebugImpl ∈
      ([.secretStructDefs []
           { reprTransparent := true, clone := true, debugNotTest := true,
             debugTest := false, deserialize := true, serialize := false }
           { reprTransparent := true, clone := true, debugNotTest := true,
             debugTest := false, deserialize := true, serialize := false },
         .cloneableSecretImpl, .debugSecretImpl, .zeroizeImpl,
         .exposeSecretImpl, .secretMicrotypeImpl,
         .testDebugImpl, .testPartialEqImpl] : List Artifact)
    ∧ Artifact.testPartialEqImpl ∈
      ([.secretStructDefs []
           { reprTransparent := true, clone := true, debugNotTest := true,
             debugTest := false, deserialize := true, serialize := false }
           { reprTransparent := true, clone := true, debugNotTest := true,
             debugTest := false, deserialize := true, serialize := false },
         .cloneableSecretImpl, .debugSecretImpl, .zeroizeImpl,
         .exposeSecretImpl, .secretMicrotypeImpl,
         .testDebugImpl, .testPartialEqImpl] : List Artifact) :=
  secret_test_impls_unconditional allFeatures
    { inner := "String", name := "Passphrase", vis := "",
      attrs := [secretAttr 17] }
    [] { secret := some { serialize := none, pathSpan := 17 },
         kindAnnot := none }
    { serialize := none, pathSpan := 17 }
    (by decide) rfl
    [.secretStructDefs []
        { reprTransparent := true, clone := true, debugNotTest := true,
          debugTest := false, deserialize := true, serialize := false }
        { reprTransparent := true, clone := true, debugNotTest := true,
          debugTest := false, deserialize := true, serialize := false },
      .cloneableSecretImpl, .debugSecretImpl, .zeroizeImpl,
      .exposeSecretImpl, .secretMicrotypeImpl,
      .testDebugImpl, .testPartialEqImpl]
    (by decide)

/-- Witness for claim C8's theorem: a secret marker with the secret family
disabled yields the located secret-feature-missing error. -/
theorem generate_single_fail_fast_prechecks_witness :
    generateSingle noFeatures
        { inner := "String", name := "Password", vis := "",
          attrs := [secretAttr 21] }
      = .err (.secretFeatureMissing 21) :=
  (generate_single_fail_fast_prechecks noFeatures
      { inner := "String", name := "Password", vis := "",
        attrs := [secretAttr 21] }
      [] { secret := some { serialize := none, pathSpan := 21 },
           kindAnnot := none }
      { serialize := none, pathSpan := 21 }
      (by decide) rfl).2.1 rfl (Or.inr rfl)

/-- Witness for claim C9's theorem: one string and one int marker together
yield the conflicting-attribute error. -/
theorem strip_kind_marker_exclusive_total_witness :
    stripKindAnnot [stringAttr 31, intAttr 32] = .error .onlyOneKindMarker :=
  (strip_kind_marker_exclusive_total [stringAttr 31, intAttr 32]).2.2.1
    (stringAttr 31) (intAttr 32) (by decide) (by decide)
